import Mathlib

/-!
# Verification of the anubis event-position estimator

Shallow embedding of `src/anubis/consts.py` and `src/anubis/anubis.py`.
Python float arithmetic is modelled over `ℝ`; Python's float `%` with a
positive modulus is `pymod`; `dict.get(k, d)` is `List.lookup` followed by
`Option.getD`; keyword parameters that default to `None` are `Option`
arguments resolved with `Option.getD` exactly where the source resolves them.
-/

namespace Anubis

/-- Earth radius in meters (`consts.RADIUS`). -/
def RADIUS : ℝ := 6371000

/-- Default focal length in mm (`consts.FOCAL_LENGTH`). -/
def FOCAL_LENGTH : ℝ := 22

/-- Default sensor width in mm (`consts.SENSOR_WIDTH`). -/
def SENSOR_WIDTH : ℝ := 7

/-- Probable height of objects in meters (`consts.probable_heights`),
as an association list mirroring the Python dict. -/
def probable_heights : List (String × ℝ) :=
  [("person", 1.7), ("car", 1.6), ("motorcycle", 1.0), ("truck", 1.8),
   ("airplane", 15.0), ("traffic light", 0.6), ("boat", 30.0)]

/-- Python float modulo `a % b`: `a - b * ⌊a / b⌋` (sign follows the divisor). -/
noncomputable def pymod (a b : ℝ) : ℝ := a - b * ⌊a / b⌋

/-- `math.degrees`. -/
noncomputable def degrees (x : ℝ) : ℝ := x * 180 / Real.pi

/-- `math.radians`. -/
noncomputable def radians (x : ℝ) : ℝ := x * Real.pi / 180

/-- Line 57 / 126: `bearing_center_deg = (bearing_center * 180 / math.pi + 360) % 360`. -/
noncomputable def bearing_center_deg_of (bearing_center : ℝ) : ℝ :=
  pymod (bearing_center * 180 / Real.pi + 360) 360

/-- Line 60 / 129: `probable_heights.get(classification, 1.0)`. -/
noncomputable def probable_height_local (classification : String) : ℝ :=
  (probable_heights.lookup classification).getD 1.0

/-- Lines 60-63: the geographic path's resolved height — the table lookup
followed by `if altitude > 40: probable_height *= 2`. -/
noncomputable def probable_height_geo (classification : String) (altitude : ℝ) : ℝ :=
  let probable_height := probable_height_local classification
  if altitude > 40 then probable_height * 2 else probable_height

/-- Line 51 / 120: `sensor_height = sensor_width * (sensor_height_px / sensor_width_px)`. -/
noncomputable def sensor_height_of (sensor_width sensor_height_px sensor_width_px : ℝ) : ℝ :=
  sensor_width * (sensor_height_px / sensor_width_px)

/-- Line 65 / 131: `height_on_sensor = (sensor_height * target_height_px) / sensor_height_px`. -/
noncomputable def height_on_sensor_of (sensor_height target_height_px sensor_height_px : ℝ) : ℝ :=
  (sensor_height * target_height_px) / sensor_height_px

/-- Line 67 / 133: `field_of_view = math.degrees(2 * math.atan((sensor_width / 2) / focal_length))`. -/
noncomputable def field_of_view_of (sensor_width focal_length : ℝ) : ℝ :=
  degrees (2 * Real.arctan ((sensor_width / 2) / focal_length))

/-- Line 69 / 135: `distance_to_object = (probable_height * focal_length) / height_on_sensor`. -/
noncomputable def distance_to_object_of (probable_height focal_length height_on_sensor : ℝ) : ℝ :=
  (probable_height * focal_length) / height_on_sensor

/-- Line 71 / 137-138: `target_bearing_deg = (bearing_center_deg - (field_of_view / 2)) +
(target_center_x / (sensor_width_px / field_of_view))`. -/
noncomputable def target_bearing_deg_of
    (bearing_center_deg field_of_view sensor_width_px target_center_x : ℝ) : ℝ :=
  (bearing_center_deg - (field_of_view / 2)) + (target_center_x / (sensor_width_px / field_of_view))

/-- Lines 74-82: the rhumb-line destination step of `get_event_pos`. -/
noncomputable def project_geographic
    (distance_to_object target_bearing source_lat source_lon : ℝ) : List ℝ :=
  let dr := distance_to_object / RADIUS
  let lat_delta := dr * Real.cos target_bearing
  let target_lat := source_lat + lat_delta
  let delta := Real.log (Real.tan (target_lat / 2 + Real.pi / 4) /
    Real.tan (source_lat / 2 + Real.pi / 4))
  let q := if |delta| > 10e-12 then lat_delta / delta else Real.cos source_lat
  let lon_delta := dr * Real.sin target_bearing / q
  let target_lon := source_lon + lon_delta
  [target_lat, target_lon]

/-- Line 146: `zconst = ((sensor_height_px / target_height_px) * probable_height) / sensor_height_px`. -/
noncomputable def zconst_of (sensor_height_px target_height_px probable_height : ℝ) : ℝ :=
  ((sensor_height_px / target_height_px) * probable_height) / sensor_height_px

/-- Lines 150-153: the sign-branching vertical offset of `get_event_local_pos`. -/
noncomputable def targetZ_of (sensor_height_px target_center_y zconst : ℝ) : ℝ :=
  if sensor_height_px / 2 < target_center_y then
    (sensor_height_px - target_center_y) * zconst
  else
    ((sensor_height_px / 2) - target_center_y) * zconst * (-1)

/-- `get_event_pos` (anubis.py lines 7-82).  The unused optional keyword
parameters `target_center_y` and `target_width_px` are kept in the signature;
`focal_length` and `sensor_width` default to the module constants when `none`. -/
noncomputable def get_event_pos (classification : String)
    (bearing_center source_lat source_lon : ℝ)
    (sensor_width_px sensor_height_px target_center_x : ℝ)
    (target_center_y target_width_px : Option ℤ)
    (target_height_px altitude : ℝ)
    (focal_length0 sensor_width0 : Option ℝ) : List ℝ :=
  let focal_length := focal_length0.getD FOCAL_LENGTH
  let sensor_width := sensor_width0.getD SENSOR_WIDTH
  let sensor_height := sensor_height_of sensor_width sensor_height_px sensor_width_px
  let bearing_center_deg := bearing_center_deg_of bearing_center
  let probable_height := probable_height_geo classification altitude
  let height_on_sensor := height_on_sensor_of sensor_height target_height_px sensor_height_px
  let field_of_view := field_of_view_of sensor_width focal_length
  let distance_to_object := distance_to_object_of probable_height focal_length height_on_sensor
  let target_bearing := radians
    (target_bearing_deg_of bearing_center_deg field_of_view sensor_width_px target_center_x)
  project_geographic distance_to_object target_bearing source_lat source_lon

/-- `get_event_local_pos` (anubis.py lines 84-155). -/
noncomputable def get_event_local_pos (classification : String)
    (bearing_center : ℝ)
    (sensor_width_px sensor_height_px target_center_x target_center_y target_height_px : ℝ)
    (focal_length0 sensor_width0 : Option ℝ) : List ℝ :=
  let focal_length := focal_length0.getD FOCAL_LENGTH
  let sensor_width := sensor_width0.getD SENSOR_WIDTH
  let sensor_height := sensor_height_of sensor_width sensor_height_px sensor_width_px
  let bearing_center_deg := bearing_center_deg_of bearing_center
  let probable_height := probable_height_local classification
  let height_on_sensor := height_on_sensor_of sensor_height target_height_px sensor_height_px
  let field_of_view := field_of_view_of sensor_width focal_length
  let distance_to_object := distance_to_object_of probable_height focal_length height_on_sensor
  let target_bearing := radians
    (target_bearing_deg_of bearing_center_deg field_of_view sensor_width_px target_center_x)
  let targetX := distance_to_object * Real.cos target_bearing
  let targetY := distance_to_object * Real.sin target_bearing
  let zconst := zconst_of sensor_height_px target_height_px probable_height
  let targetZ := targetZ_of sensor_height_px target_center_y zconst
  [targetX, targetY, targetZ]

/-- `does_classifications_have_probable_heights` (anubis.py lines 158-167):
`classification in probable_heights`, i.e. key membership in the dict. -/
def does_classifications_have_probable_heights (classification : String) : Bool :=
  (probable_heights.map Prod.fst).contains classification

/-- Parameter names of `get_event_pos`, in source order (anubis.py lines 7-20). -/
def get_event_pos_params : List String :=
  ["classification", "bearing_center", "source_lat", "source_lon", "sensor_width_px",
   "sensor_height_px", "target_center_x", "target_center_y", "target_width_px",
   "target_height_px", "altitude", "focal_length", "sensor_width"]

/-- Parameter names of `get_event_local_pos`, in source order (anubis.py lines 84-93). -/
def get_event_local_pos_params : List String :=
  ["classification", "bearing_center", "sensor_width_px", "sensor_height_px",
   "target_center_x", "target_center_y", "target_height_px", "focal_length", "sensor_width"]

/-! ## Helper lemmas -/

theorem pymod_nonneg (a : ℝ) {b : ℝ} (hb : 0 < b) : 0 ≤ pymod a b := by
  have h1 : (⌊a / b⌋ : ℝ) ≤ a / b := Int.floor_le _
  have h2 : b * (⌊a / b⌋ : ℝ) ≤ b * (a / b) := mul_le_mul_of_nonneg_left h1 hb.le
  have h3 : b * (a / b) = a := mul_div_cancel₀ a hb.ne'
  unfold pymod
  linarith

theorem pymod_lt (a : ℝ) {b : ℝ} (hb : 0 < b) : pymod a b < b := by
  have h1 : a / b < (⌊a / b⌋ : ℝ) + 1 := Int.lt_floor_add_one _
  have h2 : b * (a / b) < b * ((⌊a / b⌋ : ℝ) + 1) := mul_lt_mul_of_pos_left h1 hb
  have h3 : b * (a / b) = a := mul_div_cancel₀ a hb.ne'
  unfold pymod
  nlinarith

theorem pymod_shift {x b : ℝ} (hb : 0 < b) (h0 : 0 ≤ x) (h1 : x < b) :
    pymod (x + b) b = x := by
  have hfe : ⌊(x + b) / b⌋ = 1 := by
    rw [Int.floor_eq_iff]
    constructor
    · push_cast
      rw [le_div_iff₀ hb]
      linarith
    · push_cast
      rw [div_lt_iff₀ hb]
      linarith
  unfold pymod
  rw [hfe]
  push_cast
  ring

theorem half_fov (w fov : ℝ) (hw : w ≠ 0) : (w / 2) / (w / fov) = fov / 2 := by
  rcases eq_or_ne fov 0 with h | h
  · simp [h]
  · field_simp
    ring

/-! ## Claim theorems -/

/-- C1: altitude-based height doubling is asymmetric between the two entry
points: for classification "car" (table height 1.6 m) the geographic path
resolves height 3.2 m at altitude 41 and 1.6 m at altitude 40 (the boundary
`altitude > 40` is strict), while the local path — which takes no altitude
input — resolves 1.6 m. -/
theorem altitude_doubling_asymmetry :
    probable_height_geo "car" 41 = 3.2 ∧
    probable_height_geo "car" 40 = 1.6 ∧
    probable_height_local "car" = 1.6 := by
  refine ⟨?_, ?_, rfl⟩
  · have h : probable_height_local "car" = 1.6 := rfl
    rw [probable_height_geo, h, if_pos (by norm_num : (41 : ℝ) > 40)]
    norm_num
  · have h : probable_height_local "car" = 1.6 := rfl
    rw [probable_height_geo, h, if_neg (by norm_num : ¬ (40 : ℝ) > 40)]

/-- C2: geographic projector fixed point — with estimated distance 0 the
rhumb-line step of `get_event_pos` returns exactly `[source_lat, source_lon]`;
the isometric-latitude delta is 0 there (so the guard takes the
`cos source_lat` fallback). -/
theorem project_geographic_fixed_point (source_lat source_lon target_bearing : ℝ) :
    project_geographic 0 target_bearing source_lat source_lon =
      [source_lat, source_lon] ∧
    Real.log (Real.tan (source_lat / 2 + Real.pi / 4) /
      Real.tan (source_lat / 2 + Real.pi / 4)) = 0 := by
  constructor
  · simp [project_geographic]
  · rcases eq_or_ne (Real.tan (source_lat / 2 + Real.pi / 4)) 0 with h | h
    · simp [h]
    · rw [div_self h, Real.log_one]

/-- C2 witness: the fixed point evaluated at a concrete source location. -/
theorem project_geographic_fixed_point_witness :
    project_geographic 0 1 0.5 0.25 = [0.5, 0.25] :=
  (project_geographic_fixed_point 0.5 0.25 1).1

/-- C4: for every `bearing_center`, the normalized degree value
`(degrees(bearing_center) + 360) % 360` lies in `[0, 360)`. -/
theorem bearing_center_deg_in_range (bearing_center : ℝ) :
    0 ≤ bearing_center_deg_of bearing_center ∧
    bearing_center_deg_of bearing_center < 360 := by
  unfold bearing_center_deg_of
  exact ⟨pymod_nonneg _ (by norm_num), pymod_lt _ (by norm_num)⟩

/-- C7: the membership helper returns `true` exactly on the keys of
`probable_heights`; in particular `true` for "car" and `false` for "bicycle",
and the default keys are exactly person, car, motorcycle, truck, airplane,
traffic light, boat. -/
theorem classification_membership :
    does_classifications_have_probable_heights "car" = true ∧
    does_classifications_have_probable_heights "bicycle" = false ∧
    (∀ c : String, does_classifications_have_probable_heights c = true ↔
      (c = "person" ∨ c = "car" ∨ c = "motorcycle" ∨ c = "truck" ∨
       c = "airplane" ∨ c = "traffic light" ∨ c = "boat")) := by
  refine ⟨by decide, by decide, fun c => ?_⟩
  simp [does_classifications_have_probable_heights, probable_heights,
    List.contains, List.elem_eq_mem, decide_eq_true_eq]

/-- C5: vertical sign convention of the local projector — at
`sensor_height_px = 1000`, `z` is positive for `target_center_y = 700` (lower
half, computed as `(1000 - 700) * zconst`) and negative for
`target_center_y = 300` (upper half, computed as `((1000/2) - 300) * zconst *
(-1)`); the lower-half branch is taken exactly when `target_center_y >
sensor_height_px / 2`. -/
theorem z_sign_convention :
    (∀ thp ph : ℝ, 0 < thp → 0 < ph →
      targetZ_of 1000 700 (zconst_of 1000 thp ph) =
        (1000 - 700) * zconst_of 1000 thp ph ∧
      0 < targetZ_of 1000 700 (zconst_of 1000 thp ph) ∧
      targetZ_of 1000 300 (zconst_of 1000 thp ph) =
        ((1000 / 2) - 300) * zconst_of 1000 thp ph * (-1) ∧
      targetZ_of 1000 300 (zconst_of 1000 thp ph) < 0) ∧
    (∀ h y c : ℝ,
      (h / 2 < y → targetZ_of h y c = (h - y) * c) ∧
      (¬ h / 2 < y → targetZ_of h y c = ((h / 2) - y) * c * (-1))) := by
  constructor
  · intro thp ph hthp hph
    have hc : 0 < zconst_of 1000 thp ph := by
      unfold zconst_of
      positivity
    have h7 : targetZ_of 1000 700 (zconst_of 1000 thp ph) =
        (1000 - 700) * zconst_of 1000 thp ph := by
      unfold targetZ_of
      rw [if_pos (by norm_num : (1000 : ℝ) / 2 < 700)]
    have h3 : targetZ_of 1000 300 (zconst_of 1000 thp ph) =
        ((1000 / 2) - 300) * zconst_of 1000 thp ph * (-1) := by
      unfold targetZ_of
      rw [if_neg (by norm_num : ¬ (1000 : ℝ) / 2 < 300)]
    refine ⟨h7, ?_, h3, ?_⟩
    · rw [h7]
      nlinarith
    · rw [h3]
      nlinarith
  · intro h y c
    constructor
    · intro hy
      unfold targetZ_of
      rw [if_pos hy]
    · intro hy
      unfold targetZ_of
      rw [if_neg hy]

/-- C5 witness: concrete evaluations of the sign convention. -/
theorem z_sign_convention_witness :
    0 < targetZ_of 1000 700 (zconst_of 1000 50 1.6) ∧
    targetZ_of 10 7 3 = (10 - 7) * 3 :=
  ⟨(z_sign_convention.1 50 1.6 (by norm_num) (by norm_num)).2.1,
   (z_sign_convention.2 10 7 3).1 (by norm_num)⟩

/-- C6: with positive assumed height, pixel height, sensor dimensions, focal
length and sensor width, the estimated distance-to-object computed by both
entry points is strictly positive. -/
theorem distance_positive (ph fl sw swp shp thp : ℝ)
    (hph : 0 < ph) (hthp : 0 < thp) (hswp : 0 < swp) (hshp : 0 < shp)
    (hfl : 0 < fl) (hsw : 0 < sw) :
    0 < distance_to_object_of ph fl
      (height_on_sensor_of (sensor_height_of sw shp swp) thp shp) := by
  unfold distance_to_object_of height_on_sensor_of sensor_height_of
  positivity

/-- C6 witness: distance is positive at a concrete camera configuration. -/
theorem distance_positive_witness :
    0 < distance_to_object_of 1.6 22
      (height_on_sensor_of (sensor_height_of 7 800 1000) 50 800) :=
  distance_positive 1.6 22 7 1000 800 50 (by norm_num) (by norm_num)
    (by norm_num) (by norm_num) (by norm_num) (by norm_num)

/-- For bearings already in `[0, 2π)` the normalization is the plain
radians-to-degrees conversion. -/
theorem bearing_center_deg_of_id {b : ℝ} (h0 : 0 ≤ b) (h1 : b < 2 * Real.pi) :
    bearing_center_deg_of b = b * 180 / Real.pi := by
  unfold bearing_center_deg_of
  apply pymod_shift (by norm_num)
  · positivity
  · rw [div_lt_iff₀ Real.pi_pos]
    nlinarith [Real.pi_pos]

/-- A detection at the horizontal sensor center contributes no bearing offset. -/
theorem centered_target_bearing (b fov w : ℝ) (hw : w ≠ 0) :
    target_bearing_deg_of (bearing_center_deg_of b) fov w (w / 2) =
      bearing_center_deg_of b := by
  unfold target_bearing_deg_of
  rw [half_fov w fov hw]
  ring

/-- C3 counterexample: at `bearing_center = 2π` (a centered detection with
`sensor_width_px = 2`, `target_center_x = 1` and the default camera's field of
view) the computed target bearing is 0, not `2π` — the mod-360 normalization
breaks the claimed equality for bearings outside `[0, 2π)`. -/
theorem bearing_roundtrip_counterexample :
    radians (target_bearing_deg_of (bearing_center_deg_of (2 * Real.pi))
      (field_of_view_of 7 22) 2 1) ≠ 2 * Real.pi := by
  have h1 : bearing_center_deg_of (2 * Real.pi) = 0 := by
    unfold bearing_center_deg_of
    have h : 2 * Real.pi * 180 / Real.pi + 360 = 720 := by
      field_simp
      ring
    rw [h]
    unfold pymod
    norm_num
  have h2 : target_bearing_deg_of 0 (field_of_view_of 7 22) 2 1 = 0 := by
    have hh := half_fov 2 (field_of_view_of 7 22) (by norm_num)
    unfold target_bearing_deg_of
    rw [show (1 : ℝ) = 2 / 2 by norm_num, hh]
    ring
  rw [h1, h2]
  unfold radians
  rw [zero_mul, zero_div]
  exact fun hc => absurd hc.symm (by positivity : (0 : ℝ) < 2 * Real.pi).ne'

/-- C3 amended: for a detection centered exactly on the camera axis the
computed target bearing equals `bearing_center` whenever `bearing_center ∈
[0, 2π)` (in general it equals the normalized bearing, which differs outside
that interval); and at `bearing_center = 0` the local projector's `y` output
is 0. -/
theorem centered_bearing_roundtrip :
    (∀ b fov w : ℝ, w ≠ 0 → 0 ≤ b → b < 2 * Real.pi →
      radians (target_bearing_deg_of (bearing_center_deg_of b) fov w (w / 2)) = b) ∧
    (∀ (c : String) (w shp cy thp : ℝ) (f s : Option ℝ), w ≠ 0 →
      (get_event_local_pos c 0 w shp (w / 2) cy thp f s).get? 1 = some 0) := by
  constructor
  · intro b fov w hw h0 h1
    rw [centered_target_bearing b fov w hw, bearing_center_deg_of_id h0 h1]
    unfold radians
    field_simp
  · intro c w shp cy thp f s hw
    have hb0 : bearing_center_deg_of 0 = 0 := by
      unfold bearing_center_deg_of
      rw [show (0 : ℝ) * 180 / Real.pi + 360 = 0 + 360 by ring]
      exact pymod_shift (by norm_num) le_rfl (by norm_num)
    have htb : radians (target_bearing_deg_of (bearing_center_deg_of 0)
        (field_of_view_of (s.getD SENSOR_WIDTH) (f.getD FOCAL_LENGTH)) w (w / 2)) = 0 := by
      rw [centered_target_bearing 0 _ w hw, hb0]
      unfold radians
      rw [zero_mul, zero_div]
    simp only [get_event_local_pos]
    rw [htb]
    simp

/-- C3 witness: the amended round-trip at concrete inputs. -/
theorem centered_bearing_roundtrip_witness :
    radians (target_bearing_deg_of (bearing_center_deg_of 1) 55 2 (2 / 2)) = 1 ∧
    (get_event_local_pos "car" 0 2 1000 (2 / 2) 300 50 none none).get? 1 = some 0 :=
  ⟨centered_bearing_roundtrip.1 1 55 2 (by norm_num) (by norm_num)
      (by nlinarith [Real.pi_gt_three]),
   centered_bearing_roundtrip.2 "car" 2 1000 300 50 none none (by norm_num)⟩

/-- C8: a classification absent from the height table never fails the lookup
and makes both entry points behave exactly as if the assumed height were the
default 1.0 m — i.e. exactly like "motorcycle", whose table height is 1.0 m. -/
theorem unknown_classification_default :
    ∀ c : String, probable_heights.lookup c = none →
      probable_height_local c = 1.0 ∧
      (∀ alt : ℝ, probable_height_geo c alt = probable_height_geo "motorcycle" alt) ∧
      (∀ (b lat lon swp shp cx : ℝ) (y w : Option ℤ) (thp alt : ℝ) (f s : Option ℝ),
        get_event_pos c b lat lon swp shp cx y w thp alt f s =
          get_event_pos "motorcycle" b lat lon swp shp cx y w thp alt f s) ∧
      (∀ (b swp shp cx cy thp : ℝ) (f s : Option ℝ),
        get_event_local_pos c b swp shp cx cy thp f s =
          get_event_local_pos "motorcycle" b swp shp cx cy thp f s) := by
  intro c hc
  have hl : probable_height_local c = 1.0 := by
    unfold probable_height_local
    rw [hc]
    rfl
  have hloc : probable_height_local c = probable_height_local "motorcycle" := hl
  have hgeo : ∀ alt : ℝ, probable_height_geo c alt = probable_height_geo "motorcycle" alt := by
    intro alt
    unfold probable_height_geo
    rw [hloc]
  refine ⟨hl, hgeo, ?_, ?_⟩
  · intro b lat lon swp shp cx y w thp alt f s
    simp only [get_event_pos, hgeo]
  · intro b swp shp cx cy thp f s
    simp only [get_event_local_pos, hloc]

/-- C8 witness: "bicycle" is not in the table and the local entry point treats
it exactly like the 1.0 m class "motorcycle". -/
theorem unknown_classification_default_witness :
    probable_heights.lookup "bicycle" = none ∧
    probable_height_local "bicycle" = 1.0 ∧
    get_event_local_pos "bicycle" 0 100 100 50 50 10 none none =
      get_event_local_pos "motorcycle" 0 100 100 50 50 10 none none := by
  have hc : probable_heights.lookup "bicycle" = none := rfl
  exact ⟨hc, (unknown_classification_default "bicycle" hc).1,
    (unknown_classification_default "bicycle" hc).2.2.2 0 100 100 50 50 10 none none⟩

/-- C9 counterexample: `get_event_local_pos` does not accept a
`target_width_px` parameter at all — its parameter list has no such name, so
the claim that "both entry points accept target_width_px" is false. -/
theorem local_has_no_target_width_px :
    "target_width_px" ∉ get_event_local_pos_params := by decide

/-- C9 amended: the geographic entry point accepts `target_center_y` and
`target_width_px` and ignores them — any two calls differing only in those two
arguments return identical results; the local entry point accepts no
`target_width_px` parameter. -/
theorem unused_params_no_effect :
    ("target_center_y" ∈ get_event_pos_params ∧
     "target_width_px" ∈ get_event_pos_params ∧
     "target_width_px" ∉ get_event_local_pos_params) ∧
    (∀ (c : String) (b lat lon swp shp cx : ℝ) (y yy w ww : Option ℤ)
       (thp alt : ℝ) (f s : Option ℝ),
      get_event_pos c b lat lon swp shp cx y w thp alt f s =
        get_event_pos c b lat lon swp shp cx yy ww thp alt f s) :=
  ⟨⟨by decide, by decide, by decide⟩,
   fun _ _ _ _ _ _ _ _ _ _ _ _ _ _ _ => rfl⟩

/-- C9 witness: concrete geographic calls differing only in the unused
optional arguments agree. -/
theorem unused_params_no_effect_witness :
    get_event_pos "car" 1 0.5 0.25 1000 100 500 none none 50 10 none none =
      get_event_pos "car" 1 0.5 0.25 1000 100 500 (some 3) (some 4) 50 10 none none :=
  unused_params_no_effect.2 "car" 1 0.5 0.25 1000 100 500 none (some 3) none
    (some 4) 50 10 none none

/-- The height-on-sensor expression does not depend on `sensor_height_px`
(nonzero): the factor cancels between the derived sensor height and the
height-on-sensor division. -/
theorem hos_indep (sw swp thp : ℝ) {shp shp' : ℝ} (h : shp ≠ 0) (h' : shp' ≠ 0) :
    height_on_sensor_of (sensor_height_of sw shp swp) thp shp =
      height_on_sensor_of (sensor_height_of sw shp' swp) thp shp' := by
  unfold height_on_sensor_of sensor_height_of
  rcases eq_or_ne swp 0 with hs | hs
  · simp [hs]
  · field_simp
    ring

/-- C10: the geographic entry point's result is independent of
`sensor_height_px` — any two positive values give the same `[lat, lon]`. -/
theorem geo_independent_of_sensor_height_px
    (c : String) (b lat lon swp cx : ℝ) (y w : Option ℤ) (thp alt : ℝ)
    (f s : Option ℝ) (shp shp' : ℝ) (h : 0 < shp) (h' : 0 < shp') :
    get_event_pos c b lat lon swp shp cx y w thp alt f s =
      get_event_pos c b lat lon swp shp' cx y w thp alt f s := by
  simp only [get_event_pos]
  rw [hos_indep (s.getD SENSOR_WIDTH) swp thp h.ne' h'.ne']

/-- C10 witness: concrete sensor pixel heights 100 and 200 give the same
geographic result. -/
theorem geo_independent_of_sensor_height_px_witness :
    get_event_pos "car" 1 0.5 0.25 1000 100 500 none none 50 10 none none =
      get_event_pos "car" 1 0.5 0.25 1000 200 500 none none 50 10 none none :=
  geo_independent_of_sensor_height_px "car" 1 0.5 0.25 1000 500 none none 50 10
    none none 100 200 (by norm_num) (by norm_num)

end Anubis
